import Mathlib

/-!
Verification of the credential-helper core (Rust sources `main.rs`, `mfa.rs`,
`rotate.rs`, `storage.rs`) against its natural-language specification.

The Rust code is shallowly embedded: machine integers are `Nat`/`Int` with
explicit `% 2 ^ w` where wrap-around matters, fallible code returns
`Except`/`Option`, and the effectful orchestration steps are modelled as pure
functions over explicit state with the external collaborators (STS/IAM
services, the YubiKey device) passed in as parameters.
-/

/-! ## One-time-code engine (`fn ykoath` in `main.rs` / `mfa.rs`) -/

/-- Big-endian byte encoding of a `u64` (`u64::to_be_bytes`).  Bytes are
modelled as naturals below 256. -/
def u64ToBeBytes (n : Nat) : List Nat :=
  [n / 2 ^ 56 % 256, n / 2 ^ 48 % 256, n / 2 ^ 40 % 256, n / 2 ^ 32 % 256,
   n / 2 ^ 24 % 256, n / 2 ^ 16 % 256, n / 2 ^ 8 % 256, n % 256]

/-- The authentication challenge computed by `fn ykoath`:
`let challenge = (timestamp / 30).to_be_bytes();` where `timestamp` is the
current unix time in whole seconds (a `u64`). -/
def ykoathChallenge (unixSecs : Nat) : List Nat :=
  u64ToBeBytes (unixSecs / 30)

/-- Decoding of a big-endian byte sequence back into a natural number. -/
def beBytesToNat (bs : List Nat) : Nat :=
  bs.foldl (fun a b => a * 256 + b) 0

/-- `u32::from_be_bytes(response.try_into().unwrap())`: the `try_into`
to `[u8; 4]` succeeds exactly when the slice has length 4; the `unwrap`
panics otherwise, modelled as `none`. -/
def u32FromBeBytes (bs : List Nat) : Option Nat :=
  match bs with
  | [b0, b1, b2, b3] => some (((b0 * 256 + b1) * 256 + b2) * 256 + b3)
  | _ => none

/-- `10_u32.pow(u32::from(digits))`: overflows (is a panic with debug
assertions, and in any case not a returned error) once `10 ^ digits`
exceeds `u32::MAX`; the overflow is modelled as `none`. -/
def u32CheckedPow10 (d : Nat) : Option Nat :=
  if 10 ^ d < 2 ^ 32 then some (10 ^ d) else none

/-- Decimal rendering of a natural number, most significant digit first
(the digit list of `Nat.digits 10`, reversed, with `0` rendered `"0"`). -/
def natDecimal (n : Nat) : List Char :=
  if n = 0 then ['0'] else ((Nat.digits 10 n).map (fun d => Char.ofNat (48 + d))).reverse

/-- Left zero padding to width `w`, as performed by the Rust format
specifier with a zero fill and a minimum width (padding never truncates). -/
def zeroPadTo (w : Nat) (cs : List Char) : List Char :=
  List.replicate (w - cs.length) '0' ++ cs

/-- The decode step of `fn ykoath` (identical in `main.rs` and `mfa.rs`):
interpret the device's raw response as a `u32` big-endian, reduce it
modulo `10 ^ digits` and render it zero-padded to `digits` characters.
`none` models the two panicking paths (`try_into().unwrap()` on a slice
whose length is not 4, overflow of the `u32` power). -/
def ykoathCode (digits : Nat) (response : List Nat) : Option String :=
  match u32FromBeBytes response with
  | none => none
  | some r =>
    match u32CheckedPow10 digits with
    | none => none
    | some p => some (String.mk (zeroPadTo digits (natDecimal (r % p))))

theorem beBytesToNat_u64ToBeBytes (m : Nat) (hm : m < 2 ^ 64) :
    beBytesToNat (u64ToBeBytes m) = m := by
  simp only [beBytesToNat, u64ToBeBytes, List.foldl]
  omega

theorem u32FromBeBytes_isSome (bs : List Nat) :
    (u32FromBeBytes bs).isSome = true ↔ bs.length = 4 := by
  rcases bs with _ | ⟨a, _ | ⟨b, _ | ⟨c, _ | ⟨d, _ | ⟨e, tl⟩⟩⟩⟩⟩ <;>
    simp [u32FromBeBytes]

theorem pow10_lt_u32_iff (d : Nat) : 10 ^ d < 2 ^ 32 ↔ d ≤ 9 := by
  constructor
  · intro h
    by_contra hd
    have h10 : (10 : Nat) ^ 10 ≤ 10 ^ d := Nat.pow_le_pow_right (by norm_num) (by omega)
    have : (2 : Nat) ^ 32 < 10 ^ 10 := by norm_num
    omega
  · intro h
    have : (10 : Nat) ^ d ≤ 10 ^ 9 := Nat.pow_le_pow_right (by norm_num) h
    have : (10 : Nat) ^ 9 < 2 ^ 32 := by norm_num
    omega

theorem u32CheckedPow10_eq_some (d : Nat) (h : d ≤ 9) :
    u32CheckedPow10 d = some (10 ^ d) := by
  unfold u32CheckedPow10
  exact if_pos ((pow10_lt_u32_iff d).mpr h)

theorem u32CheckedPow10_eq_none (d : Nat) (h : ¬ d ≤ 9) :
    u32CheckedPow10 d = none := by
  unfold u32CheckedPow10
  exact if_neg (fun hlt => h ((pow10_lt_u32_iff d).mp hlt))

theorem natDecimal_length_le (m d : Nat) (hd : 1 ≤ d) (hm : m < 10 ^ d) :
    (natDecimal m).length ≤ d := by
  unfold natDecimal
  by_cases h0 : m = 0
  · simp [h0, hd]
  · simp only [h0, if_false, List.length_reverse, List.length_map]
    have hlen : (Nat.digits 10 m).length = Nat.log 10 m + 1 :=
      Nat.digits_len 10 m (by norm_num) h0
    have hlog : Nat.log 10 m < d :=
      (Nat.lt_pow_iff_log_lt (by norm_num) h0).mp hm
    omega

/-- Claim C7: on every invocation the authentication challenge sent to the
hardware token is the 8-byte big-endian encoding of
`floor(current_unix_time / 30)` — the challenge is a pure function of the
clock value sampled at the call, it is 8 bytes long, its bytes are valid
octets, and decoding it big-endian recovers exactly the 30-second time
step. -/
theorem C7_challenge_encoding (t : Nat) (h : t < 2 ^ 64) :
    (ykoathChallenge t).length = 8 ∧
    beBytesToNat (ykoathChallenge t) = t / 30 ∧
    (∀ b ∈ ykoathChallenge t, b < 256) := by
  have hm : t / 30 < 2 ^ 64 := lt_of_le_of_lt (Nat.div_le_self t 30) h
  refine ⟨rfl, beBytesToNat_u64ToBeBytes (t / 30) hm, ?_⟩
  intro b hb
  simp only [ykoathChallenge, u64ToBeBytes, List.mem_cons, List.not_mem_nil,
    or_false] at hb
  rcases hb with rfl | rfl | rfl | rfl | rfl | rfl | rfl | rfl <;> omega

/-- Witness for C7 at the concrete clock value 59 (time step 1). -/
theorem C7_witness :
    (ykoathChallenge 59).length = 8 ∧
    beBytesToNat (ykoathChallenge 59) = 59 / 30 ∧
    (∀ b ∈ ykoathChallenge 59, b < 256) :=
  C7_challenge_encoding 59 (by decide)

/-- Claim C10: the decode step of `fn ykoath` is total exactly when the raw
response is 4 bytes long and `digits ≤ 9`; a response of any other length
hits the unchecked slice-to-array conversion and `digits ≥ 10` overflows the
`u32` computation of `10 ^ digits` (both modelled as `none`, neither being a
returned error of the function). -/
theorem C10_decode_totality (digits : Nat) (response : List Nat) :
    (ykoathCode digits response).isSome = true ↔
      response.length = 4 ∧ digits ≤ 9 := by
  unfold ykoathCode
  cases hr : u32FromBeBytes response with
  | none =>
    have h4 : ¬ response.length = 4 := by
      intro h
      have := (u32FromBeBytes_isSome response).mpr h
      rw [hr] at this
      simp at this
    simp [h4]
  | some r =>
    have h4 : response.length = 4 := by
      have h2 : (u32FromBeBytes response).isSome = true := by rw [hr]; rfl
      exact (u32FromBeBytes_isSome response).mp h2
    by_cases hd : digits ≤ 9
    · rw [u32CheckedPow10_eq_some digits hd]
      simp [h4, hd]
    · rw [u32CheckedPow10_eq_none digits hd]
      simp [h4, hd]

/-- Counterexample to claim C2 as stated: a device response reporting 0
digits still renders the one-character string `"0"`, not a string of
"exactly `d` characters" (here `d = 0`). -/
theorem C2_counterexample :
    ykoathCode 0 [0, 0, 0, 0] = some "0" ∧ ¬ ("0" : String).length = 0 := by
  constructor
  · rfl
  · decide

/-- Claim C2, amended: for a device response with `d` digits, `1 ≤ d ≤ 9`,
whose raw response is 4 bytes decoding to the `u32` value `rv`, the emitted
code is the decimal rendering of `rv mod 10 ^ d` zero-padded on the left to
exactly `d` characters (for `d = 0` the rendered string is `"0"`, of length
1, and for `d ≥ 10` the engine panics instead of emitting a code). -/
theorem C2_code_format (d : Nat) (r : List Nat) (rv : Nat)
    (hr : u32FromBeBytes r = some rv) (hd1 : 1 ≤ d) (hd9 : d ≤ 9) :
    ykoathCode d r = some (String.mk (zeroPadTo d (natDecimal (rv % 10 ^ d)))) ∧
    (String.mk (zeroPadTo d (natDecimal (rv % 10 ^ d)))).length = d := by
  constructor
  · unfold ykoathCode
    rw [hr, u32CheckedPow10_eq_some d hd9]
  · have hmod : rv % 10 ^ d < 10 ^ d := Nat.mod_lt _ (Nat.pos_pow_of_pos d (by norm_num))
    have hlen : (natDecimal (rv % 10 ^ d)).length ≤ d :=
      natDecimal_length_le (rv % 10 ^ d) d hd1 hmod
    show (String.mk (zeroPadTo d (natDecimal (rv % 10 ^ d)))).data.length = d
    simp only [String.mk, zeroPadTo, List.length_append, List.length_replicate]
    omega

/-- Witness for C2 at the spec's example: `digits = 6`, raw bytes
`[0x00, 0x0F, 0x42, 0x40]` (decimal 1000000) yield the string `"000000"`. -/
theorem C2_witness :
    ykoathCode 6 [0, 15, 66, 64] = some "000000" := by
  have h := C2_code_format 6 [0, 15, 66, 64] 1000000 (by decide) (by decide) (by decide)
  have hs : String.mk (zeroPadTo 6 (natDecimal (1000000 % 10 ^ 6))) = "000000" := by decide
  rw [hs] at h
  exact h.1

/-! ## Renewal decision logic (`mfa.rs` lines 33-55, `main.rs` lines 83-92) -/

/-- The `{profile}/mfa` section of the INI credentials file as consumed by
`mfa.rs`.  `aws_expiration` holds the instant parsed from the stored RFC3339
string (`DateTime::parse_from_rfc3339`), in nanoseconds since the unix
epoch; the textual parse itself is a chrono library detail outside the
embedding. -/
structure IniMfaSection where
  aws_access_key_id : Option String
  aws_secret_access_key : Option String
  aws_session_token : Option String
  aws_expiration : Option Int
deriving DecidableEq, Repr

/-- The `renew` decision of `mfa.rs`: an absent section renews; a present
section must carry the key id, secret and session token (`ensure!`, the
second with the source's copied `"no aws_access_key_id"` message) and an
expiration, and then renews iff
`Utc::now() + Duration::seconds(duration.as_secs() / 5) > expiration`.
`nowNs` is the current instant in nanoseconds since the epoch and
`durationSecs` the requested validity in whole seconds (`--duration`,
default 12h). -/
def mfaRenewDecision (nowNs : Int) (durationSecs : Nat) (sect : Option IniMfaSection) :
    Except String Bool :=
  match sect with
  | none => .ok true
  | some s =>
    match s.aws_access_key_id with
    | none => .error "no aws_access_key_id"
    | some _ =>
      match s.aws_secret_access_key with
      | none => .error "no aws_access_key_id"
      | some _ =>
        match s.aws_session_token with
        | none => .error "no aws_session_token"
        | some _ =>
          match s.aws_expiration with
          | none => .error "no aws_expiration"
          | some e =>
            .ok (decide (nowNs + ((durationSecs / 5 : Nat) : Int) * 1000000000 > e))

/-- The `Expiration` struct persisted by `main.rs` (`secs: i64`, `nanos: u32`). -/
structure MainExpiration where
  secs : Int
  nanos : Nat
deriving DecidableEq, Repr

/-- The `Credentials` struct of `main.rs`: all four fields are mandatory. -/
structure MainCredentials where
  access_key_id : String
  secret_access_key : String
  session_token : String
  expiration : MainExpiration
deriving DecidableEq, Repr

/-- `Duration::new(credentials.expiration.secs as _, credentials.expiration.nanos)`
as a total count of nanoseconds: the `i64` seconds are reinterpreted as a
`u64` (two's complement, i.e. taken modulo `2 ^ 64`). -/
def expirationAsDurationNs (e : MainExpiration) : Nat :=
  (e.secs % (2 ^ 64 : Int)).toNat * 1000000000 + e.nanos

/-- The `expired` decision of `main.rs`: absent cached credentials are
expired; present credentials are expired iff
`now + Duration::from_secs(600) > expiration`, a fixed 600-second margin
(`main.rs` takes no requested duration at all). -/
def mainExpired (nowNs : Nat) (credentials : Option MainCredentials) : Bool :=
  match credentials with
  | some c => decide (nowNs + 600 * 1000000000 > expirationAsDurationNs c.expiration)
  | none => true

/-- Modelled from the spec: the claimed renewal policy for a present record,
`Stale` iff `now + duration / 5 > expiration` (instants in nanoseconds,
duration in whole seconds). -/
def specStaleDecision (nowNs : Int) (durationSecs : Nat) (expirationNs : Int) : Bool :=
  decide (nowNs + ((durationSecs / 5 : Nat) : Int) * 1000000000 > expirationNs)

/-- A concrete `main.rs` credential record expiring 5000 seconds after the
epoch, used to exercise the decision logic. -/
def mainSampleCredentials : MainCredentials :=
  { access_key_id := "AKIAEXAMPLE", secret_access_key := "secret",
    session_token := "token", expiration := { secs := 5000, nanos := 0 } }

/-- A complete sample `{profile}/mfa` INI section expiring at `10 ^ 12` ns
after the epoch. -/
def iniSampleSection : IniMfaSection :=
  { aws_access_key_id := some "AKIAEXAMPLE",
    aws_secret_access_key := some "secret",
    aws_session_token := some "token",
    aws_expiration := some 1000000000000 }

/-- Counterexample to claim C1 as stated: for the `main.rs` variant the
margin is a fixed 600 seconds, not `duration / 5`.  With `now = 0`, a cached
expiration 5000 s away and the default requested duration of 12 h
(43200 s), the code decides `Fresh` (`expired = false`) while the claimed
policy `now + d / 5 > e` (margin 8640 s) decides `Stale`. -/
theorem C1_counterexample :
    mainExpired 0 (some mainSampleCredentials) = false ∧
    specStaleDecision 0 43200 (5000 * 1000000000) = true := by
  constructor
  · decide
  · decide

/-- Claim C1, amended: the `mfa.rs` decision follows the claimed policy — an
absent record is `Stale`, and a (complete) present record with expiration
`e` is `Stale` iff `now + duration / 5 > e` — while the `main.rs` decision
uses a fixed 600-second margin independent of any requested duration: an
absent record is expired, and a present record (whose expiration is a
mandatory field) is expired iff `now + 600 s > e`. -/
theorem C1_renewal_decision (nowI : Int) (d : Nat) (s : IniMfaSection) (e : Int)
    (hak : s.aws_access_key_id.isSome = true)
    (hsk : s.aws_secret_access_key.isSome = true)
    (hst : s.aws_session_token.isSome = true)
    (he : s.aws_expiration = some e)
    (nowN : Nat) (c : MainCredentials) :
    mfaRenewDecision nowI d none = .ok true ∧
    (mfaRenewDecision nowI d (some s) = .ok true ↔
      nowI + ((d / 5 : Nat) : Int) * 1000000000 > e) ∧
    mainExpired nowN none = true ∧
    (mainExpired nowN (some c) = true ↔
      nowN + 600 * 1000000000 > expirationAsDurationNs c.expiration) := by
  obtain ⟨ak, hak'⟩ := Option.isSome_iff_exists.mp hak
  obtain ⟨sk, hsk'⟩ := Option.isSome_iff_exists.mp hsk
  obtain ⟨st, hst'⟩ := Option.isSome_iff_exists.mp hst
  refine ⟨rfl, ?_, rfl, ?_⟩
  · simp [mfaRenewDecision, hak', hsk', hst', he]
  · simp [mainExpired]

/-- Witness for C1 at concrete inputs: a complete INI section expiring at
`e = 10 ^ 12` ns with `now = 0` and the default 12-hour duration is stale,
and concrete `main.rs` credentials expiring 5000 s away are fresh under the
fixed 600-second margin. -/
theorem C1_witness :
    mfaRenewDecision 0 43200 (some iniSampleSection) = .ok true ∧
    mainExpired 0 (some mainSampleCredentials) = false := by
  have h := C1_renewal_decision 0 43200 iniSampleSection 1000000000000
    (by decide) (by decide) (by decide) (by decide) 0 mainSampleCredentials
  refine ⟨h.2.1.mpr (by decide), ?_⟩
  have h2 := h.2.2.2
  by_contra hb
  have hT : mainExpired 0 (some mainSampleCredentials) = true := by
    revert hb
    cases mainExpired 0 (some mainSampleCredentials) <;> simp
  exact absurd (h2.mp hT) (by decide)

/-! ## Renewal orchestration (`main.rs` lines 78-98) -/

/-- Lookup in an association list, modelling `BTreeMap` reads (keys are
unique in any list obtained from a `BTreeMap`). -/
def assocGet {α : Type} (l : List (String × α)) (k : String) : Option α :=
  (l.find? (fun p => p.1 == k)).map (fun p => p.2)

/-- Insert-or-replace in an association list, modelling `BTreeMap::insert`
and in-place updates through `get_mut`. -/
def assocPut {α : Type} (l : List (String × α)) (k : String) (v : α) :
    List (String × α) :=
  match l with
  | [] => [(k, v)]
  | (k0, v0) :: tl => if k0 == k then (k, v) :: tl else (k0, v0) :: assocPut tl k v

theorem assocGet_assocPut {α : Type} (l : List (String × α)) (k : String) (v : α) :
    assocGet (assocPut l k v) k = some v := by
  induction l with
  | nil => simp [assocGet, assocPut, List.find?]
  | cons hd tl ih =>
    by_cases h : hd.1 == k
    · simp [assocPut, h, assocGet, List.find?]
    · simpa [assocPut, h, assocGet, List.find?] using ih

/-- The `Ykoath` struct of `main.rs` (the provisioned account name). -/
structure MainYkoathSlot where
  name : String
deriving DecidableEq, Repr

/-- The `MfaDevice` struct of `main.rs`: optional cached credentials plus
the hardware-token account. -/
structure MainMfaDevice where
  credentials : Option MainCredentials
  ykoath : MainYkoathSlot
deriving DecidableEq, Repr

/-- The `Storage` struct of `main.rs` (`mfa-devices` map only; modelled as
the ordered entry list of the `BTreeMap`). -/
structure MainStorage where
  mfa_devices : List (String × MainMfaDevice)
deriving DecidableEq, Repr

/-- Observable outcome of one renewal invocation of `main.rs`:
the in-memory result (or the propagated error), whether
`get_session_token` was invoked, and the storage value written to the
file (`none` when `fs::write` was never reached, leaving the file as it
was). -/
structure RenewTrace where
  result : Except String MainStorage
  exchanged : Bool
  written : Option MainStorage
deriving Repr

/-- The renewal slice of `fn main` in `main.rs` (lines 78-98): look up the
entry for the MFA serial number (`ok_or` "no entry"), evaluate the
freshness decision, and if expired exchange a fresh one-time code for
session credentials (`get_session_token(...)?`, whose failure — including a
failed one-time-code computation — propagates before any write) and only
then overwrite the storage file with the updated document.  The external
exchange is passed in as its result. -/
def mainRenewStep (storage : MainStorage) (serialNumber : String) (nowNs : Nat)
    (exchange : Except String MainCredentials) : RenewTrace :=
  match assocGet storage.mfa_devices serialNumber with
  | none => { result := .error "no entry", exchanged := false, written := none }
  | some entry =>
    if mainExpired nowNs entry.credentials then
      match exchange with
      | .error e => { result := .error e, exchanged := true, written := none }
      | .ok c =>
        let storage' : MainStorage :=
          { mfa_devices := assocPut storage.mfa_devices serialNumber
              { entry with credentials := some c } }
        { result := .ok storage', exchanged := true, written := some storage' }
    else
      { result := .ok storage, exchanged := false, written := none }

/-- Claim C4: the storage file is written during a renewal invocation iff
the decision was stale (expired) and the exchange succeeded; when the
decision is fresh no exchange call and no write happen and the cached
storage is returned unchanged; and when the exchange (or the one-time-code
computation feeding it) fails, nothing is written — the on-disk file is
left exactly as it was. -/
theorem C4_persist_iff (storage : MainStorage) (sn : String) (nowNs : Nat)
    (exchange : Except String MainCredentials) :
    ((mainRenewStep storage sn nowNs exchange).written.isSome = true ↔
      (∃ entry, assocGet storage.mfa_devices sn = some entry ∧
        mainExpired nowNs entry.credentials = true ∧ exchange.isOk = true)) ∧
    (∀ entry, assocGet storage.mfa_devices sn = some entry →
      mainExpired nowNs entry.credentials = false →
      mainRenewStep storage sn nowNs exchange =
        { result := .ok storage, exchanged := false, written := none }) ∧
    (∀ msg, exchange = .error msg →
      (mainRenewStep storage sn nowNs exchange).written = none) := by
  cases hl : assocGet storage.mfa_devices sn with
  | none => simp [mainRenewStep, hl]
  | some entry =>
    cases hexp : mainExpired nowNs entry.credentials with
    | false => simp [mainRenewStep, hl, hexp]
    | true =>
      cases exchange with
      | error msg => simp [mainRenewStep, hl, hexp, Except.isOk, Except.toBool]
      | ok c => simp [mainRenewStep, hl, hexp, Except.isOk, Except.toBool]

/-- Sample `main.rs` storage: one registered device with no cached
credentials (so the decision is stale). -/
def mainSampleStorage : MainStorage :=
  { mfa_devices := [("SN123", { credentials := none, ykoath := { name := "acct" } })] }

/-- Witness for C4: with a stale entry and a failing exchange, nothing is
written to the storage file. -/
theorem C4_witness :
    (mainRenewStep mainSampleStorage "SN123" 0 (Except.error "exchange failed")).written =
      none :=
  (C4_persist_iff mainSampleStorage "SN123" 0
    (Except.error "exchange failed")).2.2 "exchange failed" rfl

/-! ## Credential store (`storage.rs`) -/

/-- The `Credentials` struct of `storage.rs`: `session_token` and
`expiration` are independently optional (`skip_serializing_if` +
`default`).  The expiration instant (`DateTime<Utc>`) is modelled in
nanoseconds since the unix epoch. -/
structure Credentials where
  access_key_id : String
  secret_access_key : String
  session_token : Option String
  expiration : Option Int
deriving DecidableEq, Repr

/-- The `Ykoath` struct of `storage.rs`. -/
structure Ykoath where
  name : String
deriving DecidableEq, Repr

/-- The `MfaDevice` enum of `storage.rs` (open tagged union, currently the
single `Ykoath` variant). -/
inductive MfaDevice
  | ykoath (slot : Ykoath)
deriving DecidableEq, Repr

/-- The `Storage` struct of `storage.rs`: two `BTreeMap`s, modelled as
their ordered entry lists. -/
structure Storage where
  credentials : List (String × Credentials)
  mfa_devices : List (String × MfaDevice)
deriving DecidableEq, Repr

/-! ## Key rotation (`rotate.rs`) -/

/-- The key-rotation operation of `rotate.rs`: look up the cached
credentials for `--iam` (`ok_or` "missing credentials"), list the access
keys registered for that identity (`iamKeys`, the key ids reported by
`list_access_keys`), delete every listed key whose id differs from the
cached one, create one new key (`created`, the fresh key returned by
`create_access_key`), insert it into the store under the same identity and
save.  Returns the key ids remaining on the identity together with the
saved store. -/
def rotateStep (storage : Storage) (iam : String) (iamKeys : List String)
    (created : Credentials) : Except String (List String × Storage) :=
  match assocGet storage.credentials iam with
  | none => .error ("missing credentials for " ++ iam)
  | some cached =>
    .ok (iamKeys.filter (fun k => k == cached.access_key_id) ++ [created.access_key_id],
      { storage with credentials := assocPut storage.credentials iam created })

/-- A cached long-lived credential for identity `"me"` with key id
`"AKIAOLD"`. -/
def rotateOldKey : Credentials :=
  { access_key_id := "AKIAOLD", secret_access_key := "s0",
    session_token := none, expiration := none }

def rotateSampleStorage : Storage :=
  { credentials := [("me", rotateOldKey)], mfa_devices := [] }

/-- The fresh access key returned by `create_access_key` in the sample
rotation run. -/
def rotateNewKey : Credentials :=
  { access_key_id := "AKIANEW", secret_access_key := "s1",
    session_token := none, expiration := none }

/-- Counterexample to claim C3 as stated: rotating an identity that holds
two keys, the cached `"AKIAOLD"` and a second `"AKIASECOND"`, deletes only
the non-cached key and then creates `"AKIANEW"` — two keys remain, not
exactly one. -/
theorem C3_counterexample :
    rotateStep rotateSampleStorage "me" ["AKIAOLD", "AKIASECOND"] rotateNewKey =
      .ok (["AKIAOLD", "AKIANEW"],
        { credentials := [("me", rotateNewKey)], mfa_devices := [] }) ∧
    ¬ (["AKIAOLD", "AKIANEW"] : List String).length = 1 := by
  constructor
  · rfl
  · decide

/-- Claim C3, amended: after one rotation the identity's registered keys
are exactly the surviving listed copies of the cached key plus the one
newly created key (which, being fresh, differs from every prior key), and
the store's cached record for the identity equals the new key; exactly one
key remains precisely when the cached key id was not among the listed
keys. -/
theorem C3_rotation (storage : Storage) (iam : String) (iamKeys : List String)
    (created cached : Credentials)
    (hc : assocGet storage.credentials iam = some cached)
    (hfresh : created.access_key_id ∉ iamKeys) :
    ∃ endKeys storage',
      rotateStep storage iam iamKeys created = .ok (endKeys, storage') ∧
      endKeys = iamKeys.filter (fun k => k == cached.access_key_id) ++
        [created.access_key_id] ∧
      assocGet storage'.credentials iam = some created ∧
      created.access_key_id ∈ endKeys ∧
      (∀ k ∈ iamKeys, ¬ created.access_key_id = k) ∧
      (cached.access_key_id ∉ iamKeys → endKeys = [created.access_key_id]) := by
  refine ⟨iamKeys.filter (fun k => k == cached.access_key_id) ++ [created.access_key_id],
    { storage with credentials := assocPut storage.credentials iam created },
    ?_, rfl, ?_, ?_, ?_, ?_⟩
  · unfold rotateStep
    rw [hc]
  · exact assocGet_assocPut storage.credentials iam created
  · simp
  · intro k hk heq
    exact hfresh (heq ▸ hk)
  · intro hnot
    have : iamKeys.filter (fun k => k == cached.access_key_id) = [] := by
      rw [List.filter_eq_nil_iff]
      intro a ha
      simp only [beq_iff_eq]
      intro heq
      exact hnot (heq ▸ ha)
    rw [this]
    rfl

/-- Witness for C3: the identity's listed keys do not include the cached
id (the state after a previous rotation), so exactly the one new key
remains and it is cached. -/
theorem C3_witness :
    ∃ endKeys storage',
      rotateStep rotateSampleStorage "me" ["AKIAX"] rotateNewKey = .ok (endKeys, storage') ∧
      endKeys = (["AKIAX"] : List String).filter (fun k => k == "AKIAOLD") ++ ["AKIANEW"] ∧
      assocGet storage'.credentials "me" = some rotateNewKey ∧
      "AKIANEW" ∈ endKeys ∧
      (∀ k ∈ (["AKIAX"] : List String), ¬ ("AKIANEW" : String) = k) ∧
      ("AKIAOLD" ∉ (["AKIAX"] : List String) → endKeys = ["AKIANEW"]) :=
  C3_rotation rotateSampleStorage "me" ["AKIAX"] rotateNewKey rotateOldKey
    (by decide) (by decide)

/-! ## Persistence (`storage.rs` `load`/`save` via `serde_json`)

The document is modelled at the level of the JSON value tree: `save`
serializes `Storage` to a `Json` value (the byte-level pretty-printing and
re-parsing performed by `serde_json` is a faithful text encoding of this
tree) and `load` parses a `Json` value back.  The RFC3339 rendering of the
`expiration` instant is modelled by the instant value itself (chrono's
formatter and parser round-trip the instant exactly). -/

/-- JSON value tree. -/
inductive Json
  | null
  | str (s : String)
  | num (n : Int)
  | obj (fields : List (String × Json))
deriving Repr

/-- Field lookup in a JSON object, as serde's struct deserializer resolves
field names (order-independent; unknown fields are ignored by default). -/
def lookupField (fields : List (String × Json)) (k : String) : Option Json :=
  (fields.find? (fun p => p.1 == k)).map (fun p => p.2)

/-- A mandatory string field. -/
def parseStringField (fields : List (String × Json)) (k : String) :
    Except String String :=
  match lookupField fields k with
  | some (.str s) => .ok s
  | some _ => .error ("invalid field: " ++ k)
  | none => .error ("missing field: " ++ k)

/-- An optional string field (`#[serde(default)]`: absent means `none`). -/
def parseOptStringField (fields : List (String × Json)) (k : String) :
    Except String (Option String) :=
  match lookupField fields k with
  | some (.str s) => .ok (some s)
  | some _ => .error ("invalid field: " ++ k)
  | none => .ok none

/-- An optional timestamp field (`#[serde(default)]`). -/
def parseOptNumField (fields : List (String × Json)) (k : String) :
    Except String (Option Int) :=
  match lookupField fields k with
  | some (.num n) => .ok (some n)
  | some _ => .error ("invalid field: " ++ k)
  | none => .ok none

/-- Serialization of `Credentials` (kebab-case field names;
`skip_serializing_if = "Option::is_none"` omits absent options). -/
def serializeCredentials (c : Credentials) : Json :=
  .obj ([("access-key-id", .str c.access_key_id),
         ("secret-access-key", .str c.secret_access_key)] ++
    (match c.session_token with
     | none => []
     | some t => [("session-token", .str t)]) ++
    (match c.expiration with
     | none => []
     | some e => [("expiration", .num e)]))

/-- Deserialization of `Credentials`. -/
def parseCredentials : Json → Except String Credentials
  | .obj fields =>
    match parseStringField fields "access-key-id",
        parseStringField fields "secret-access-key",
        parseOptStringField fields "session-token",
        parseOptNumField fields "expiration" with
    | .ok akid, .ok sk, .ok st, .ok exp =>
      .ok { access_key_id := akid, secret_access_key := sk,
            session_token := st, expiration := exp }
    | .error e, _, _, _ => .error e
    | _, .error e, _, _ => .error e
    | _, _, .error e, _ => .error e
    | _, _, _, .error e => .error e
  | _ => .error "expected object"

/-- Serialization of the `MfaDevice` enum (externally tagged, kebab-case
variant name). -/
def serializeMfaDevice : MfaDevice → Json
  | .ykoath y => .obj [("ykoath", .obj [("name", .str y.name)])]

/-- Deserialization of the `MfaDevice` enum: an object with exactly one
entry whose key names the variant. -/
def parseMfaDevice : Json → Except String MfaDevice
  | .obj [(tag, payload)] =>
    if tag = "ykoath" then
      match payload with
      | .obj fields =>
        match parseStringField fields "name" with
        | .ok n => .ok (.ykoath { name := n })
        | .error e => .error e
      | _ => .error "invalid ykoath"
    else .error ("unknown variant: " ++ tag)
  | _ => .error "expected externally tagged enum"

/-- Deserialization of a JSON object's entries into map entries, failing on
the first invalid value. -/
def parseEntryList {α : Type} (parseValue : Json → Except String α) :
    List (String × Json) → Except String (List (String × α))
  | [] => .ok []
  | (k, v) :: tl =>
    match parseValue v, parseEntryList parseValue tl with
    | .ok a, .ok rest => .ok ((k, a) :: rest)
    | .error e, _ => .error e
    | _, .error e => .error e

/-- A map-valued field with `#[serde(default)]`: an absent field yields the
empty map. -/
def parseMapField {α : Type} (parseValue : Json → Except String α)
    (fields : List (String × Json)) (k : String) :
    Except String (List (String × α)) :=
  match lookupField fields k with
  | some (.obj entries) => parseEntryList parseValue entries
  | some _ => .error ("invalid field: " ++ k)
  | none => .ok []

/-- `serde_json::to_vec_pretty(&self)` in `Storage::save`, at the level of
the value tree. -/
def serializeStorage (s : Storage) : Json :=
  .obj [("credentials", .obj (s.credentials.map (fun p => (p.1, serializeCredentials p.2)))),
        ("mfa-devices", .obj (s.mfa_devices.map (fun p => (p.1, serializeMfaDevice p.2))))]

/-- `serde_json::from_slice::<Storage>` in `Storage::load`, at the level of
the value tree: both top-level maps carry `#[serde(default)]`. -/
def parseStorage : Json → Except String Storage
  | .obj fields =>
    match parseMapField parseCredentials fields "credentials",
        parseMapField parseMfaDevice fields "mfa-devices" with
    | .ok cs, .ok ds => .ok { credentials := cs, mfa_devices := ds }
    | .error e, _ => .error e
    | _, .error e => .error e
  | _ => .error "expected object"

/-- The two failure kinds of `Storage::load`: the backing file is absent
(`fs::read` fails with not-found) or its contents cannot be parsed
(`serde_json` fails). -/
inductive LoadError
  | notFound
  | corrupt
deriving DecidableEq, Repr

/-- `Storage::load` over a model of the file system: `none` means the file
is absent, `some none` a file whose bytes are not valid JSON, and
`some (some j)` a file holding the JSON document `j`. -/
def load (file : Option (Option Json)) : Except LoadError Storage :=
  match file with
  | none => .error .notFound
  | some none => .error .corrupt
  | some (some j) =>
    match parseStorage j with
    | .ok s => .ok s
    | .error _ => .error .corrupt

theorem parseCredentials_serializeCredentials (c : Credentials) :
    parseCredentials (serializeCredentials c) = .ok c := by
  obtain ⟨akid, sk, st, exp⟩ := c
  cases st <;> cases exp <;>
    simp [serializeCredentials, parseCredentials, parseStringField,
      parseOptStringField, parseOptNumField, lookupField, List.find?]

theorem parseMfaDevice_serializeMfaDevice (d : MfaDevice) :
    parseMfaDevice (serializeMfaDevice d) = .ok d := by
  obtain ⟨name⟩ := d
  simp [serializeMfaDevice, parseMfaDevice, parseStringField, lookupField, List.find?]

theorem parseEntryList_map {α : Type} (parseValue : Json → Except String α)
    (serializeValue : α → Json)
    (h : ∀ a, parseValue (serializeValue a) = .ok a) (l : List (String × α)) :
    parseEntryList parseValue (l.map (fun p => (p.1, serializeValue p.2))) = .ok l := by
  induction l with
  | nil => rfl
  | cons hd tl ih =>
    simp only [List.map_cons, parseEntryList, h hd.2, ih]

/-- Claim C5: saving a `Storage` and loading it back reproduces a
field-for-field equal store — every record's `access_key_id`,
`secret_access_key`, `session_token` and `expiration` are preserved, and
absent optional fields stay absent. -/
theorem C5_store_round_trip (s : Storage) :
    parseStorage (serializeStorage s) = .ok s := by
  obtain ⟨cs, ds⟩ := s
  simp [serializeStorage, parseStorage, parseMapField, lookupField, List.find?,
    parseEntryList_map parseCredentials serializeCredentials
      parseCredentials_serializeCredentials cs,
    parseEntryList_map parseMfaDevice serializeMfaDevice
      parseMfaDevice_serializeMfaDevice ds]

/-- Claim C6: `Storage::load` fails with `NotFound` exactly when the
persisted file is absent and with `Corrupt` exactly when its contents
cannot be parsed; a parseable document missing the top-level
`credentials` or `mfa-devices` sections loads successfully with those
sections defaulted to empty maps, never an error. -/
theorem C6_load_errors (j : Json) (fields : List (String × Json)) :
    load none = .error .notFound ∧
    load (some none) = .error .corrupt ∧
    (∀ f, load f = .error .notFound ↔ f = none) ∧
    (∀ s, load (some (some j)) = .ok s ↔ parseStorage j = .ok s) ∧
    (load (some (some j)) = .error .corrupt ↔ ∃ e, parseStorage j = .error e) ∧
    (lookupField fields "credentials" = none → lookupField fields "mfa-devices" = none →
      parseStorage (.obj fields) = .ok { credentials := [], mfa_devices := [] }) := by
  refine ⟨rfl, rfl, ?_, ?_, ?_, ?_⟩
  · intro f
    match f with
    | none => simp [load]
    | some none => simp [load]
    | some (some j') =>
      cases hp : parseStorage j' with
      | ok s => simp [load, hp]
      | error e => simp [load, hp]
  · intro s
    cases hp : parseStorage j with
    | ok s' => simp [load, hp]
    | error e => simp [load, hp]
  · cases hp : parseStorage j with
    | ok s' => simp [load, hp]
    | error e => simp [load, hp]
  · intro h1 h2
    simp [parseStorage, parseMapField, h1, h2]

/-- Witness for C6: a parseable document carrying only an unrelated field
loads as the empty store. -/
theorem C6_witness :
    load (some (some (Json.obj [("other", Json.null)]))) =
      .ok { credentials := [], mfa_devices := [] } := by
  have h := C6_load_errors (Json.obj [("other", Json.null)]) [("other", Json.null)]
  have hp := h.2.2.2.2.2 (by simp [lookupField, List.find?]) (by simp [lookupField, List.find?])
  exact (h.2.2.2.1 { credentials := [], mfa_devices := [] }).mpr hp

/-! ## Diagnostic rendering (`impl fmt::Debug for Credentials` in `storage.rs`) -/

/-- Rust's `Debug` rendering of a string value (quoting; escaping of inner
characters is irrelevant to the records compared here). -/
def debugQuote (s : String) : String := "\"" ++ s ++ "\""

/-- Rust's `Debug` rendering of an `Option`. -/
def debugOptionFmt {α : Type} (f : α → String) : Option α → String
  | none => "None"
  | some a => "Some(" ++ f a ++ ")"

/-- The manual `fmt::Debug` implementation of `storage.rs` `Credentials`:
`access_key_id` and `expiration` are rendered as-is, `secret_access_key`
as the fixed marker `"***"`, and `session_token` as
`self.session_token.as_ref().map(|_| "***")` — i.e. `None` or
`Some("***")`, revealing presence but not the value.  Braces of the Rust
output are the `\x7b`/`\x7d` characters. -/
def debugCredentials (c : Credentials) : String :=
  "Credentials \x7b access_key_id: " ++ debugQuote c.access_key_id ++
    ", secret_access_key: " ++ debugQuote "***" ++
    ", session_token: " ++ debugOptionFmt (fun _ => debugQuote "***") c.session_token ++
    ", expiration: " ++ debugOptionFmt (fun e => toString e) c.expiration ++ " \x7d"

def debugSampleA : Credentials :=
  { access_key_id := "AKIA", secret_access_key := "secret1",
    session_token := none, expiration := none }

def debugSampleB : Credentials :=
  { access_key_id := "AKIA", secret_access_key := "secret2",
    session_token := some "tok", expiration := none }

/-- Counterexample to claim C8 as stated: two records that differ only in
`secret_access_key` and `session_token` (one absent, one present) produce
different Debug output — the rendering reveals whether a session token is
present (`None` vs `Some("***")`). -/
theorem C8_counterexample :
    debugSampleA.access_key_id = debugSampleB.access_key_id ∧
    debugSampleA.expiration = debugSampleB.expiration ∧
    ¬ debugCredentials debugSampleA = debugCredentials debugSampleB := by
  refine ⟨rfl, rfl, ?_⟩
  decide

/-- Claim C8, amended: two records that agree on `access_key_id`,
`expiration` and on the presence of `session_token` produce identical
Debug output whatever their `secret_access_key` and session-token values
are — both sensitive values are rendered as the fixed marker `"***"` —
but the presence or absence of `session_token` is visible (`None` vs
`Some("***")`). -/
theorem C8_redaction (c1 c2 : Credentials)
    (hak : c1.access_key_id = c2.access_key_id)
    (hexp : c1.expiration = c2.expiration)
    (hst : c1.session_token.isSome = c2.session_token.isSome) :
    debugCredentials c1 = debugCredentials c2 := by
  unfold debugCredentials
  rw [hak, hexp]
  cases h1 : c1.session_token with
  | none =>
    cases h2 : c2.session_token with
    | none => rfl
    | some t2 => rw [h1, h2] at hst; simp at hst
  | some t1 =>
    cases h2 : c2.session_token with
    | none => rw [h1, h2] at hst; simp at hst
    | some t2 => rfl

def debugSampleC : Credentials :=
  { access_key_id := "AKIA", secret_access_key := "secretX",
    session_token := some "tokX", expiration := some 5 }

def debugSampleD : Credentials :=
  { access_key_id := "AKIA", secret_access_key := "secretY",
    session_token := some "tokY", expiration := some 5 }

/-- Witness for C8: records differing only in the secret and in the
session-token value render identically. -/
theorem C8_witness :
    debugCredentials debugSampleC = debugCredentials debugSampleD :=
  C8_redaction debugSampleC debugSampleD rfl rfl rfl

/-! ## Credential construction (`TryFrom` impls in `storage.rs`) -/

/-- The fields of `aws_sdk_iam::model::AccessKey` consumed by the
conversion (both optional in the SDK model). -/
structure IamAccessKey where
  access_key_id : Option String
  secret_access_key : Option String
deriving DecidableEq, Repr

/-- `TryFrom<&aws_sdk_iam::model::AccessKey> for Credentials`: requires
both fields, sets `session_token` and `expiration` to `None`. -/
def credentialsFromAccessKey (v : IamAccessKey) : Except String Credentials :=
  match v.access_key_id with
  | none => .error "missing access_key_id"
  | some akid =>
    match v.secret_access_key with
    | none => .error "missing secret_access_key"
    | some sk =>
      .ok { access_key_id := akid, secret_access_key := sk,
            session_token := none, expiration := none }

/-- An `aws_smithy` timestamp (`secs`, `subsec_nanos`). -/
structure SmithyDateTime where
  secs : Int
  subsec_nanos : Nat
deriving DecidableEq, Repr

/-- `NaiveDateTime::from_timestamp(expiration.secs(), expiration.subsec_nanos())`
as an instant in nanoseconds since the epoch. -/
def smithyToInstantNs (t : SmithyDateTime) : Int :=
  t.secs * 1000000000 + t.subsec_nanos

/-- The fields of `aws_sdk_sts::model::Credentials` consumed by the
conversion (all optional in the SDK model). -/
structure StsCredentials where
  access_key_id : Option String
  secret_access_key : Option String
  session_token : Option String
  expiration : Option SmithyDateTime
deriving DecidableEq, Repr

/-- `TryFrom<&aws_sdk_sts::model::Credentials> for Credentials`: requires
the key id and secret, and copies `session_token` and `expiration`
independently, each `None` when the response omits it. -/
def credentialsFromSts (v : StsCredentials) : Except String Credentials :=
  match v.access_key_id with
  | none => .error "missing access_key_id"
  | some akid =>
    match v.secret_access_key with
    | none => .error "missing secret_access_key"
    | some sk =>
      .ok { access_key_id := akid, secret_access_key := sk,
            session_token := v.session_token,
            expiration := v.expiration.map smithyToInstantNs }

/-- An STS response carrying an expiration but no session token. -/
def stsNoTokenResponse : StsCredentials :=
  { access_key_id := some "AKIA", secret_access_key := some "sk",
    session_token := none, expiration := some { secs := 1700000000, subsec_nanos := 0 } }

/-- Counterexample to claim C9 as stated: the STS conversion accepts a
response with an expiration and no session token and produces a stored
record violating the co-occurrence invariant. -/
theorem C9_counterexample :
    ∃ c, credentialsFromSts stsNoTokenResponse = .ok c ∧
      c.expiration.isSome = true ∧ c.session_token.isSome = false := by
  refine ⟨_, rfl, rfl, rfl⟩

/-- Claim C9, amended: records built by the IAM `AccessKey` conversion
always satisfy the co-occurrence invariant (both optional fields are
`None`); records built by the STS conversion copy `session_token` and
`expiration` independently from the response, so they satisfy the
invariant exactly when the response does — a response with an expiration
but no session token yields a violating record. -/
theorem C9_invariant_propagation (ak : IamAccessKey) (sts : StsCredentials)
    (c1 c2 : Credentials)
    (h1 : credentialsFromAccessKey ak = .ok c1)
    (h2 : credentialsFromSts sts = .ok c2) :
    (c1.session_token = none ∧ c1.expiration = none) ∧
    c2.session_token = sts.session_token ∧
    c2.expiration.isSome = sts.expiration.isSome ∧
    ((c2.expiration.isSome = true → c2.session_token.isSome = true) ↔
      (sts.expiration.isSome = true → sts.session_token.isSome = true)) := by
  unfold credentialsFromAccessKey at h1
  unfold credentialsFromSts at h2
  cases hak1 : ak.access_key_id with
  | none => rw [hak1] at h1; simp at h1
  | some a1 =>
    rw [hak1] at h1
    cases hsk1 : ak.secret_access_key with
    | none => rw [hsk1] at h1; simp at h1
    | some s1 =>
      rw [hsk1] at h1
      injection h1 with h1'
      cases hak2 : sts.access_key_id with
      | none => rw [hak2] at h2; simp at h2
      | some a2 =>
        rw [hak2] at h2
        cases hsk2 : sts.secret_access_key with
        | none => rw [hsk2] at h2; simp at h2
        | some s2 =>
          rw [hsk2] at h2
          injection h2 with h2'
          subst h1' h2'
          refine ⟨⟨rfl, rfl⟩, rfl, ?_, ?_⟩
          · cases sts.expiration <;> rfl
          · cases sts.expiration <;> simp

/-- A complete IAM access key. -/
def iamSampleKey : IamAccessKey :=
  { access_key_id := some "AKIANEW", secret_access_key := some "sk" }

/-- A complete STS response (token and expiration both present). -/
def stsSampleResponse : StsCredentials :=
  { access_key_id := some "AKIA", secret_access_key := some "sk",
    session_token := some "tok",
    expiration := some { secs := 3600, subsec_nanos := 0 } }

/-- The record the IAM conversion produces from `iamSampleKey`. -/
def iamSampleCredentials : Credentials :=
  { access_key_id := "AKIANEW", secret_access_key := "sk",
    session_token := none, expiration := none }

/-- The record the STS conversion produces from `stsSampleResponse`. -/
def stsSampleCredentials : Credentials :=
  { access_key_id := "AKIA", secret_access_key := "sk",
    session_token := some "tok", expiration := some 3600000000000 }

/-- Witness for C9 at complete concrete inputs. -/
theorem C9_witness :
    (iamSampleCredentials.session_token = none ∧ iamSampleCredentials.expiration = none) ∧
    stsSampleCredentials.session_token = stsSampleResponse.session_token ∧
    stsSampleCredentials.expiration.isSome = stsSampleResponse.expiration.isSome ∧
    ((stsSampleCredentials.expiration.isSome = true →
        stsSampleCredentials.session_token.isSome = true) ↔
      (stsSampleResponse.expiration.isSome = true →
        stsSampleResponse.session_token.isSome = true)) :=
  C9_invariant_propagation iamSampleKey stsSampleResponse
    iamSampleCredentials stsSampleCredentials rfl rfl
